import Mathlib

/-!
Shallow embedding of the CoCiP/pycontrails batch-analysis scripts.

The Python sources embedded here are:
* `13_true_air_speed.py` — per-waypoint barometric pressure conversion, nearest-neighbour
  wind lookup with a broad `except` that degrades to NaN, and the true-airspeed formula;
* `02_traffic_cocip.py` — the per-flight CoCiP batch loop with its all-NaN `_ERROR`
  placeholder rows, the header-once CSV append flag, and the resume filtering on
  `flight_id`;
* `06_route_cocip.py` (and `06_route_cocip_SAF_Blends.py`) — the ERA5 download
  retry loop (3 attempts, fixed 30-second sleep) and the exists-based header flag.

Floating-point values are modelled as `Option ℝ`: `some x` is an ordinary float with
real value `x`, and `none` is IEEE NaN as produced by numpy/pandas.  Every arithmetic
operation propagates NaN, numpy `x ** e` with a non-integer exponent returns NaN for a
negative base, and `sqrt` returns NaN for a negative argument.  External effects — the
`xarray.sel` wind lookups and the CoCiP / ERA5 library calls — are modelled as abstract
functions returning `Except Unit _`, where `Except.error ()` is a raised exception.
-/

/-- NaN-propagating unary operation on floats (`none` models NaN). -/
def nUn (f : ℝ → ℝ) : Option ℝ → Option ℝ
  | some x => some (f x)
  | none => none

/-- NaN-propagating binary operation on floats (`none` models NaN). -/
def nBin (f : ℝ → ℝ → ℝ) : Option ℝ → Option ℝ → Option ℝ
  | some x, some y => some (f x y)
  | _, _ => none

/-- NaN-propagating addition. -/
noncomputable def nadd : Option ℝ → Option ℝ → Option ℝ := nBin (· + ·)

/-- NaN-propagating subtraction. -/
noncomputable def nsub : Option ℝ → Option ℝ → Option ℝ := nBin (· - ·)

/-- NaN-propagating multiplication. -/
noncomputable def nmul : Option ℝ → Option ℝ → Option ℝ := nBin (· * ·)

/-- NaN-propagating division (the scripts only divide by the nonzero literal 44330). -/
noncomputable def ndiv : Option ℝ → Option ℝ → Option ℝ := nBin (· / ·)

/-- NaN-propagating squaring, numpy `x ** 2` (integer exponent, defined for all floats). -/
noncomputable def nsq : Option ℝ → Option ℝ := nUn (fun x => x ^ 2)

/-- numpy `x ** e` for a non-integer float exponent `e`: NaN for a negative base,
the real power otherwise, and NaN propagates. -/
noncomputable def npowReal (e : ℝ) : Option ℝ → Option ℝ
  | some x => if x < 0 then none else some (x ^ e)
  | none => none

/-- numpy `sqrt`: NaN for a negative argument, and NaN propagates. -/
noncomputable def nsqrt : Option ℝ → Option ℝ
  | some x => if x < 0 then none else some (Real.sqrt x)
  | none => none

/-- `np.radians`: degrees to radians. -/
noncomputable def radians (x : ℝ) : ℝ := x * (Real.pi / 180)

/-- One input waypoint of `13_true_air_speed.py`: a row of the flight CSV.
`groundspeed`, `heading` and `altitude` may be missing (NaN) in the data. -/
structure RawRow where
  flight_id : String
  time : ℝ
  latitude : ℝ
  longitude : ℝ
  altitude : Option ℝ
  groundspeed : Option ℝ
  heading : Option ℝ

/-- The ERA5 met dataset of `13_true_air_speed.py`, abstracted: the two
`met_xr[...].sel(time, latitude, longitude, level, method="nearest")` lookups,
each of which either returns a float or raises (`Except.error ()`).  The `level`
argument is the computed `pressure_hPa`, which may be NaN. -/
structure MetData where
  eastward_wind : ℝ → ℝ → ℝ → Option ℝ → Except Unit ℝ
  northward_wind : ℝ → ℝ → ℝ → Option ℝ → Except Unit ℝ

/-- Line 96 of `13_true_air_speed.py`:
`df["pressure_hPa"] = 1013.25 * (1 - (df["altitude"] / 44330)) ** 5.255`. -/
noncomputable def pressure_hPa (altitude : Option ℝ) : Option ℝ :=
  nmul (some 1013.25) (npowReal 5.255 (nsub (some 1) (ndiv altitude (some 44330))))

/-- One output waypoint of `13_true_air_speed.py`: the input columns enriched with
`pressure_hPa`, the interpolated winds, and the true-airspeed columns. -/
structure OutRow where
  flight_id : String
  time : ℝ
  latitude : ℝ
  longitude : ℝ
  altitude : Option ℝ
  groundspeed : Option ℝ
  heading : Option ℝ
  pressure_hPa : Option ℝ
  u_wind : Option ℝ
  v_wind : Option ℝ
  heading_rad : Option ℝ
  GS_x : Option ℝ
  GS_y : Option ℝ
  true_airspeed : Option ℝ

/-- Per-waypoint processing of `13_true_air_speed.py` (lines 96 and 109-136):
pressure conversion, the two wind lookups inside `try/except` (any exception sets
both winds to NaN), heading decomposition and the true-airspeed formula. -/
noncomputable def processRow (met : MetData) (r : RawRow) : OutRow :=
  let p := pressure_hPa r.altitude
  let winds : Option ℝ × Option ℝ :=
    match met.eastward_wind r.time r.latitude r.longitude p,
          met.northward_wind r.time r.latitude r.longitude p with
    | Except.ok u, Except.ok v => (some u, some v)
    | _, _ => (none, none)
  let hrad := nUn radians r.heading
  let gsx := nmul r.groundspeed (nUn Real.sin hrad)
  let gsy := nmul r.groundspeed (nUn Real.cos hrad)
  { flight_id := r.flight_id
    time := r.time
    latitude := r.latitude
    longitude := r.longitude
    altitude := r.altitude
    groundspeed := r.groundspeed
    heading := r.heading
    pressure_hPa := p
    u_wind := winds.1
    v_wind := winds.2
    heading_rad := hrad
    GS_x := gsx
    GS_y := gsy
    true_airspeed := nsqrt (nadd (nsq (nsub gsx winds.1)) (nsq (nsub gsy winds.2))) }

/-- The per-row loop of `13_true_air_speed.py` over the waypoints of one flight
(lines 109-136): every row is processed independently, in order. -/
noncomputable def processFlightRows (met : MetData) : List RawRow → List OutRow
  | [] => []
  | r :: rs => processRow met r :: processFlightRows met rs

/-- Ordering of waypoints by their `flight_id` key (pandas sorts string group keys). -/
def keyLe (a b : RawRow) : Prop := a.flight_id ≤ b.flight_id

instance : DecidableRel keyLe := fun a b => inferInstanceAs (Decidable (a.flight_id ≤ b.flight_id))

instance : IsTotal RawRow keyLe := ⟨fun a b => le_total a.flight_id b.flight_id⟩

instance : IsTrans RawRow keyLe := ⟨fun _ _ _ h1 h2 => le_trans h1 h2⟩

/-- Modelled from the spec: the full un-split frame "taken in flight_id-sorted order",
i.e. a stable sort of the waypoints by `flight_id`. -/
def sortByFlightId (l : List RawRow) : List RawRow := List.insertionSort keyLe l

/-- The boolean group-membership test used when splitting a frame by `flight_id`. -/
def keyMatches (k : String) (r : RawRow) : Bool := decide (r.flight_id = k)

/-- The group keys produced by `df.groupby("flight_id")`: the distinct `flight_id`
values of the frame, in sorted order (pandas groupby sorts keys by default). -/
def sortedUniqueKeys (l : List RawRow) : List String :=
  List.insertionSort (· ≤ ·) (l.map (fun r => r.flight_id)).dedup

/-- The `for flight_id, sub_df in df.groupby("flight_id")` loop of
`13_true_air_speed.py` (lines 105-139): each group is the subframe of rows with that
key, in original order; groups are processed separately and their outputs
concatenated (appended to the output CSV) in key order. -/
noncomputable def groupbyProcess (met : MetData) (l : List RawRow) : List OutRow :=
  (sortedUniqueKeys l).flatMap fun k => processFlightRows met (l.filter (keyMatches k))

/-- The un-processed concatenation of the `groupby` groups, in key order. -/
def groupRows (l : List RawRow) : List RawRow :=
  (sortedUniqueKeys l).flatMap fun k => l.filter (keyMatches k)

/-- A cell of the CoCiP output CSV: NaN, a string (the `flight_id` column), or a float. -/
inductive Cell where
  | nan : Cell
  | str : String → Cell
  | real : ℝ → Cell

/-- A row of the CoCiP output CSV, as a map from column name to cell. -/
def CsvRow : Type := String → Cell

/-- The `columns` list of `02_traffic_cocip.py` (lines 51-61). -/
def cocipColumns : List String :=
  ["waypoint", "icao24", "latitude", "longitude", "altitude", "vertical_rate",
   "groundspeed", "flight_id", "true_airspeed", "mach_number", "aircraft_mass",
   "fuel_flow", "engine_efficiency", "nvpm_ei_n", "wingspan", "aircraft_type",
   "time", "level", "air_pressure", "air_temperature", "specific_humidity",
   "u_wind", "v_wind", "rhi", "segment_length", "sin_a", "cos_a", "G",
   "T_sat_liquid", "rh", "rh_critical_sac", "sac", "T_critical_sac", "width",
   "depth", "rhi_1", "air_temperature_1", "specific_humidity_1", "altitude_1",
   "persistent_1", "rho_air_1", "iwc_1", "n_ice_per_m_1", "ef", "contrail_age",
   "sdr_mean", "rsr_mean", "olr_mean", "rf_sw_mean", "rf_lw_mean", "rf_net_mean",
   "cocip"]

/-- The placeholder row built by `02_traffic_cocip.py` (lines 145-146 and 181-182):
`new_line = col mapped to NaN for every column; new_line["flight_id"] = [fid]`. -/
def placeholderRow (fid : String) : CsvRow :=
  fun c => if c = "flight_id" then Cell.str fid else Cell.nan

/-- A CoCiP output-dataframe row for flight `fid`: the `flight_id` column carries the
flight id of the evaluated source flight, the other columns come from the model. -/
def tagRow (fid : String) (p : CsvRow) : CsvRow :=
  fun c => if c = "flight_id" then Cell.str fid else p c

/-- The body of the per-flight loop of `02_traffic_cocip.py` (lines 112-197).
`ev fid` abstracts `Cocip(...).eval(source=flight)`: it raises (`Except.error ()`),
or returns whether `cocip.contrail` has a `head` attribute together with the output
dataframe rows.  On an exception the script appends a single all-NaN row whose
`flight_id` is `fid ++ "_ERROR"` and continues; without contrails it appends a single
all-NaN row keyed `fid`; otherwise it appends the dataframe rows. -/
def processOneFlight (ev : String → Except Unit (Bool × List CsvRow)) (fid : String) :
    List CsvRow :=
  match ev fid with
  | Except.error _ => [placeholderRow (fid ++ "_ERROR")]
  | Except.ok (true, rows) => rows.map (tagRow fid)
  | Except.ok (false, _) => [placeholderRow fid]

/-- The whole batch loop of `02_traffic_cocip.py`: the rows appended to the output
CSV, in order, over a list of flight ids. -/
def batchCocip (ev : String → Except Unit (Bool × List CsvRow)) (fids : List String) :
    List CsvRow :=
  fids.flatMap (processOneFlight ev)

/-- Lines 82-85 of `02_traffic_cocip.py`: the unique flight ids of the input data
(`unique()` keeps first-occurrence order) minus those already present in the
existing output CSV. -/
def filteredFlights (existing : List String) (flights : List String) : List String :=
  flights.dedup.filter (fun fid => decide (fid ∉ existing))

/-- `max_retries = 3` in `06_route_cocip.py` line 120. -/
def max_retries : ℕ := 3

/-- `retry_interval = 30` (seconds) in `06_route_cocip.py` line 121. -/
def retry_interval : ℕ := 30

/-- Observable trace of one execution of the ERA5 download retry loop: the downloaded
dataset if any attempt succeeded, the number of attempts made, and the list of
`time.sleep` durations performed, in order. -/
structure RetryTrace where
  result : Option ℝ
  attempts : ℕ
  sleeps : List ℕ

/-- The `for attempt in range(1, max_retries + 1)` retry loop of
`06_route_cocip.py` lines 122-134 (identical in `06_route_cocip_SAF_Blends.py`):
try the download and `break` on success; on an exception sleep `retry_interval`
seconds if the attempt was not the last, else give up without raising. -/
def retryLoopGo (dl : ℕ → Except Unit ℝ) : List ℕ → RetryTrace
  | [] => { result := none, attempts := 0, sleeps := [] }
  | a :: rest =>
    match dl a with
    | Except.ok m => { result := some m, attempts := 1, sleeps := [] }
    | Except.error _ =>
      let tr := retryLoopGo dl rest
      { result := tr.result
        attempts := tr.attempts + 1
        sleeps := (if a < max_retries then [retry_interval] else []) ++ tr.sleeps }

/-- `range(1, max_retries + 1)` = `[1, 2, 3]`. -/
def attemptList : List ℕ := List.range' 1 max_retries

/-- The full retry-wrapped ERA5 download: run the loop over attempts 1, 2, 3. -/
def retryDownload (dl : ℕ → Except Unit ℝ) : RetryTrace := retryLoopGo dl attemptList

/-- A line of an output CSV file: the header line or a data row. -/
inductive CsvLine where
  | header : CsvLine
  | data : CsvRow → CsvLine

/-- The incremental CSV writer state: the file contents and the header flag. -/
structure WriterState where
  file : List CsvLine
  write_header : Bool

/-- One `df.to_csv(output, mode='a', header=write_header, index=False)` call followed
by `write_header = False`, as performed after every append in all three scripts. -/
def appendRows (st : WriterState) (rows : List CsvRow) : WriterState :=
  { file := st.file ++ (if st.write_header then [CsvLine.header] else []) ++
      rows.map CsvLine.data
    write_header := false }

/-- A run of appends against a writer state, in order. -/
def runAppends : WriterState → List (List CsvRow) → WriterState
  | st, [] => st
  | st, rows :: rest => runAppends (appendRows st rows) rest

/-- A run of `02_traffic_cocip.py` against an existing output file: line 88 sets
`write_header = True` unconditionally, and every append goes to the same file in
append mode. -/
def run02 (existingFile : List CsvLine) (appends : List (List CsvRow)) : WriterState :=
  runAppends { file := existingFile, write_header := true } appends

/-- A run of `06_route_cocip.py` against the output file (lines 60-74): the header
flag ends up `True` exactly when the file does not exist yet (`none`); when the file
exists, lines 67-71 force it to `False`. -/
def run06 (existingFile : Option (List CsvLine)) (appends : List (List CsvRow)) :
    WriterState :=
  runAppends { file := existingFile.getD [], write_header := existingFile.isNone } appends

/-- A run of `13_true_air_speed.py` (lines 75-77): the output file is truncated at
startup (`open(output_file, 'w').close()`) and `first_write = True`. -/
def run13 (appends : List (List CsvRow)) : WriterState :=
  runAppends { file := [], write_header := true } appends

/-- Number of header lines in a CSV file. -/
def countHeaders : List CsvLine → ℕ
  | [] => 0
  | CsvLine.header :: t => countHeaders t + 1
  | CsvLine.data _ :: t => countHeaders t

/-- Concrete met data whose lookups always succeed, returning winds (3, 4). -/
noncomputable def metOK : MetData :=
  { eastward_wind := fun _ _ _ _ => Except.ok 3
    northward_wind := fun _ _ _ _ => Except.ok 4 }

/-- Concrete met data whose lookups always raise. -/
def metFail : MetData :=
  { eastward_wind := fun _ _ _ _ => Except.error ()
    northward_wind := fun _ _ _ _ => Except.error () }

/-- A concrete waypoint with groundspeed 0, heading 90 and altitude 0. -/
noncomputable def rowGS0 : RawRow :=
  { flight_id := "F1", time := 0, latitude := 0, longitude := 0,
    altitude := some 0, groundspeed := some 0, heading := some 90 }

/-- A download that fails on every attempt. -/
def dlFail : ℕ → Except Unit ℝ := fun _ => Except.error ()

/-- A CoCiP evaluation that raises for every flight. -/
def evFail : String → Except Unit (Bool × List CsvRow) := fun _ => Except.error ()

/-- A concrete all-NaN data row. -/
def rowNanCells : CsvRow := fun _ => Cell.nan

/-- `processFlightRows` processes rows independently: it is a pointwise map. -/
theorem processFlightRows_eq_map (met : MetData) (l : List RawRow) :
    processFlightRows met l = l.map (processRow met) := by
  induction l with
  | nil => rfl
  | cons r rs ih => simp [processFlightRows, ih]

/-- Evaluation of the true-airspeed column when both lookups succeed and both
`groundspeed` and `heading` are present. -/
theorem tas_eval (met : MetData) (r : RawRow) (gs hd u v : ℝ)
    (hgs : r.groundspeed = some gs) (hh : r.heading = some hd)
    (hu : met.eastward_wind r.time r.latitude r.longitude (pressure_hPa r.altitude) =
      Except.ok u)
    (hv : met.northward_wind r.time r.latitude r.longitude (pressure_hPa r.altitude) =
      Except.ok v) :
    (processRow met r).true_airspeed =
      some (Real.sqrt ((gs * Real.sin (radians hd) - u) ^ 2 +
        (gs * Real.cos (radians hd) - v) ^ 2)) := by
  have hnn : 0 ≤ (gs * Real.sin (radians hd) - u) ^ 2 +
      (gs * Real.cos (radians hd) - v) ^ 2 := by positivity
  simp only [processRow, hu, hv, hgs, hh, nUn, nmul, nBin, nsub, nsq, nadd, nsqrt]
  rw [if_neg (not_lt.mpr hnn)]

/-- Claim C1: for every waypoint with groundspeed `gs`, heading `hd` and successfully
interpolated winds `u`, `v`, the script computes `GS_x = gs * sin(heading_rad)`,
`GS_y = gs * cos(heading_rad)` and
`true_airspeed = sqrt((GS_x - u)^2 + (GS_y - v)^2)`; in particular for `gs = 0` and
any heading, `true_airspeed = sqrt(u^2 + v^2)`. -/
theorem C1_true_airspeed_formula (met : MetData) (r : RawRow) (gs hd u v : ℝ)
    (hgs : r.groundspeed = some gs) (hh : r.heading = some hd)
    (hu : met.eastward_wind r.time r.latitude r.longitude (pressure_hPa r.altitude) =
      Except.ok u)
    (hv : met.northward_wind r.time r.latitude r.longitude (pressure_hPa r.altitude) =
      Except.ok v) :
    (processRow met r).GS_x = some (gs * Real.sin (radians hd)) ∧
    (processRow met r).GS_y = some (gs * Real.cos (radians hd)) ∧
    (processRow met r).true_airspeed =
      some (Real.sqrt ((gs * Real.sin (radians hd) - u) ^ 2 +
        (gs * Real.cos (radians hd) - v) ^ 2)) ∧
    (gs = 0 → (processRow met r).true_airspeed = some (Real.sqrt (u ^ 2 + v ^ 2))) := by
  have h3 := tas_eval met r gs hd u v hgs hh hu hv
  refine ⟨?_, ?_, h3, ?_⟩
  · simp [processRow, hu, hv, hgs, hh, nUn, nmul, nBin]
  · simp [processRow, hu, hv, hgs, hh, nUn, nmul, nBin]
  · intro h0
    subst h0
    rw [h3, show (0 * Real.sin (radians hd) - u) ^ 2 +
      (0 * Real.cos (radians hd) - v) ^ 2 = u ^ 2 + v ^ 2 by ring]

/-- Witness for C1 at a concrete waypoint: groundspeed 0, winds (3, 4). -/
theorem C1_witness :
    (processRow metOK rowGS0).true_airspeed = some (Real.sqrt ((3 : ℝ) ^ 2 + 4 ^ 2)) :=
  (C1_true_airspeed_formula metOK rowGS0 0 90 3 4 rfl rfl rfl rfl).2.2.2 rfl

/-- Claim C2: for every waypoint whose altitude column holds the float `a`, the
script computes exactly `pressure_hPa = 1013.25 * (1 - a / 44330) ** 5.255` (NaN
where the non-integer real power is undefined, i.e. for a negative base). -/
theorem C2_pressure_formula (met : MetData) (r : RawRow) (a : ℝ)
    (ha : r.altitude = some a) :
    (processRow met r).pressure_hPa =
      if 1 - a / 44330 < 0 then none
      else some (1013.25 * (1 - a / 44330) ^ (5.255 : ℝ)) := by
  by_cases hb : 1 - a / 44330 < 0
  · simp [processRow, pressure_hPa, ha, ndiv, nsub, npowReal, nmul, nBin, hb]
  · simp [processRow, pressure_hPa, ha, ndiv, nsub, npowReal, nmul, nBin, hb]

/-- Witness for C2 at altitude 0. -/
theorem C2_witness :
    (processRow metOK rowGS0).pressure_hPa =
      if (1 : ℝ) - 0 / 44330 < 0 then none
      else some (1013.25 * ((1 : ℝ) - 0 / 44330) ^ (5.255 : ℝ)) :=
  C2_pressure_formula metOK rowGS0 0 rfl

/-- If either wind lookup of a waypoint raises, both wind columns and the
true-airspeed column of that waypoint are NaN. -/
theorem processRow_fail (met : MetData) (r : RawRow)
    (hfail :
      met.eastward_wind r.time r.latitude r.longitude (pressure_hPa r.altitude) =
        Except.error () ∨
      met.northward_wind r.time r.latitude r.longitude (pressure_hPa r.altitude) =
        Except.error ()) :
    (processRow met r).u_wind = none ∧ (processRow met r).v_wind = none ∧
    (processRow met r).true_airspeed = none := by
  rcases hfail with h | h
  · cases hgs : r.groundspeed <;> cases hh : r.heading <;>
      simp [processRow, h, hgs, hh, nUn, nmul, nBin, nsub, nsq, nadd, nsqrt]
  · cases hu : met.eastward_wind r.time r.latitude r.longitude (pressure_hPa r.altitude) <;>
      cases hgs : r.groundspeed <;> cases hh : r.heading <;>
      simp [processRow, h, hu, hgs, hh, nUn, nmul, nBin, nsub, nsq, nadd, nsqrt]

/-- Per-index form of `processFlightRows_eq_map`. -/
theorem processFlightRows_get (met : MetData) :
    ∀ (rows : List RawRow) (j : ℕ) (hj : j < rows.length)
      (hj' : j < (processFlightRows met rows).length),
      (processFlightRows met rows).get ⟨j, hj'⟩ = processRow met (rows.get ⟨j, hj⟩)
  | [], j, hj, _ => absurd hj (Nat.not_lt_zero j)
  | _ :: _, 0, _, _ => rfl
  | _ :: rs, j + 1, hj, hj' =>
    processFlightRows_get met rs j (Nat.lt_of_succ_lt_succ hj) (Nat.lt_of_succ_lt_succ hj')

/-- Claim C3: for every waypoint whose wind lookup raises, the wind components and
hence the true airspeed of that waypoint are NaN, and processing continues: the
output has one row per input row and every row (including the later ones) is the
normal per-row result — the flight loop neither crashes nor aborts. -/
theorem C3_lookup_failure_continues (met : MetData) (rows : List RawRow) (i : ℕ)
    (hi : i < rows.length)
    (hfail :
      met.eastward_wind (rows.get ⟨i, hi⟩).time (rows.get ⟨i, hi⟩).latitude
          (rows.get ⟨i, hi⟩).longitude (pressure_hPa (rows.get ⟨i, hi⟩).altitude) =
        Except.error () ∨
      met.northward_wind (rows.get ⟨i, hi⟩).time (rows.get ⟨i, hi⟩).latitude
          (rows.get ⟨i, hi⟩).longitude (pressure_hPa (rows.get ⟨i, hi⟩).altitude) =
        Except.error ()) :
    (processFlightRows met rows).length = rows.length ∧
    (∀ hi' : i < (processFlightRows met rows).length,
      ((processFlightRows met rows).get ⟨i, hi'⟩).u_wind = none ∧
      ((processFlightRows met rows).get ⟨i, hi'⟩).v_wind = none ∧
      ((processFlightRows met rows).get ⟨i, hi'⟩).true_airspeed = none) ∧
    (∀ (j : ℕ) (hj : j < rows.length) (hj' : j < (processFlightRows met rows).length),
      (processFlightRows met rows).get ⟨j, hj'⟩ = processRow met (rows.get ⟨j, hj⟩)) := by
  have hlen : (processFlightRows met rows).length = rows.length := by
    rw [processFlightRows_eq_map met rows]
    exact List.length_map rows (processRow met)
  have hget := processFlightRows_get met rows
  refine ⟨hlen, fun hi' => ?_, hget⟩
  rw [hget i hi hi']
  exact processRow_fail met (rows.get ⟨i, hi⟩) hfail

/-- Witness for C3: a one-row flight whose lookup always raises. -/
theorem C3_witness :
    (processFlightRows metFail [rowGS0]).length = [rowGS0].length :=
  (C3_lookup_failure_continues metFail [rowGS0] 0 (by norm_num) (Or.inl rfl)).1

/-- Claim C4: the true-airspeed column of every waypoint is either a nonnegative
float or NaN, and it is NaN exactly when a wind lookup raised or the groundspeed or
heading input is missing — no other outcome occurs. -/
theorem C4_tas_invariant (met : MetData) (r : RawRow) :
    (∀ x, (processRow met r).true_airspeed = some x → 0 ≤ x) ∧
    ((processRow met r).true_airspeed = none ↔
      met.eastward_wind r.time r.latitude r.longitude (pressure_hPa r.altitude) =
        Except.error () ∨
      met.northward_wind r.time r.latitude r.longitude (pressure_hPa r.altitude) =
        Except.error () ∨
      r.groundspeed = none ∨ r.heading = none) := by
  cases hu : met.eastward_wind r.time r.latitude r.longitude (pressure_hPa r.altitude) with
  | error e =>
    cases e
    have hf := processRow_fail met r (Or.inl hu)
    constructor
    · intro x hx
      rw [hf.2.2] at hx
      exact Option.noConfusion hx
    · simp [hf.2.2, hu]
  | ok u =>
    cases hv : met.northward_wind r.time r.latitude r.longitude (pressure_hPa r.altitude) with
    | error e =>
      cases e
      have hf := processRow_fail met r (Or.inr hv)
      constructor
      · intro x hx
        rw [hf.2.2] at hx
        exact Option.noConfusion hx
      · simp [hf.2.2, hu, hv]
    | ok v =>
      cases hgs : r.groundspeed with
      | none =>
        have ht : (processRow met r).true_airspeed = none := by
          simp [processRow, hu, hv, hgs, nUn, nmul, nBin, nsub, nsq, nadd, nsqrt]
        constructor
        · intro x hx
          rw [ht] at hx
          exact Option.noConfusion hx
        · simp [ht, hgs]
      | some gs =>
        cases hh : r.heading with
        | none =>
          have ht : (processRow met r).true_airspeed = none := by
            simp [processRow, hu, hv, hgs, hh, nUn, nmul, nBin, nsub, nsq, nadd, nsqrt]
          constructor
          · intro x hx
            rw [ht] at hx
            exact Option.noConfusion hx
          · simp [ht, hh]
        | some hd =>
          have ht := tas_eval met r gs hd u v hgs hh hu hv
          constructor
          · intro x hx
            rw [ht] at hx
            injection hx with hx'
            exact hx' ▸ Real.sqrt_nonneg _
          · rw [ht]
            simp [hu, hv, hgs, hh]

/-- Witness for C4: failing lookups give a NaN true airspeed. -/
theorem C4_witness : (processRow metFail rowGS0).true_airspeed = none :=
  (C4_tas_invariant metFail rowGS0).2.mpr (Or.inl rfl)

/-- Claim C5: if the CoCiP evaluation of a flight raises, the batch appends exactly
one placeholder row whose `flight_id` is the original id suffixed `_ERROR` and whose
other columns are all NaN, then continues with the remaining flights. -/
theorem C5_error_placeholder (ev : String → Except Unit (Bool × List CsvRow))
    (fs1 fs2 : List String) (fid : String) (herr : ev fid = Except.error ()) :
    batchCocip ev (fs1 ++ fid :: fs2) =
      batchCocip ev fs1 ++ placeholderRow (fid ++ "_ERROR") :: batchCocip ev fs2 ∧
    placeholderRow (fid ++ "_ERROR") "flight_id" = Cell.str (fid ++ "_ERROR") ∧
    (∀ c ∈ cocipColumns, c ≠ "flight_id" → placeholderRow (fid ++ "_ERROR") c = Cell.nan) := by
  refine ⟨?_, ?_, ?_⟩
  · simp [batchCocip, List.flatMap_append, List.flatMap_cons, processOneFlight, herr]
  · simp [placeholderRow]
  · intro c _ hc
    simp [placeholderRow, hc]

/-- Witness for C5: a batch of one flight whose evaluation raises. -/
theorem C5_witness :
    batchCocip evFail ["AF123"] =
      batchCocip evFail [] ++ placeholderRow ("AF123" ++ "_ERROR") :: batchCocip evFail [] ∧
    placeholderRow ("AF123" ++ "_ERROR") "flight_id" = Cell.str ("AF123" ++ "_ERROR") ∧
    (∀ c ∈ cocipColumns, c ≠ "flight_id" →
      placeholderRow ("AF123" ++ "_ERROR") c = Cell.nan) :=
  C5_error_placeholder evFail [] [] "AF123" rfl

/-- Claim C6: the ERA5 download retry loop makes at most 3 attempts, sleeps a fixed
30 seconds between consecutive attempts (hence at most 2 sleeps), and if all 3
attempts fail it finishes with no dataset and without raising. -/
theorem C6_retry_policy (dl : ℕ → Except Unit ℝ) :
    (retryDownload dl).attempts ≤ 3 ∧
    (retryDownload dl).sleeps.length ≤ 2 ∧
    (retryDownload dl).sleeps.length + 1 = (retryDownload dl).attempts ∧
    (∀ s ∈ (retryDownload dl).sleeps, s = 30) ∧
    ((∀ a ∈ attemptList, ∀ m, dl a ≠ Except.ok m) →
      (retryDownload dl).result = none ∧ (retryDownload dl).attempts = 3 ∧
      (retryDownload dl).sleeps = [30, 30]) := by
  have hal : attemptList = [1, 2, 3] := rfl
  cases h1 : dl 1 with
  | ok m1 =>
    refine ⟨?_, ?_, ?_, ?_, fun h => absurd h1 (h 1 (by simp [hal]) m1)⟩ <;>
      simp [retryDownload, hal, retryLoopGo, h1, max_retries, retry_interval]
  | error e1 =>
    cases h2 : dl 2 with
    | ok m2 =>
      refine ⟨?_, ?_, ?_, ?_, fun h => absurd h2 (h 2 (by simp [hal]) m2)⟩ <;>
        simp [retryDownload, hal, retryLoopGo, h1, h2, max_retries, retry_interval]
    | error e2 =>
      cases h3 : dl 3 with
      | ok m3 =>
        refine ⟨?_, ?_, ?_, ?_, fun h => absurd h3 (h 3 (by simp [hal]) m3)⟩ <;>
          simp [retryDownload, hal, retryLoopGo, h1, h2, h3, max_retries, retry_interval]
      | error e3 =>
        refine ⟨?_, ?_, ?_, ?_, fun _ => ?_⟩ <;>
          simp [retryDownload, hal, retryLoopGo, h1, h2, h3, max_retries, retry_interval]

/-- Witness for C6: a download failing on every attempt. -/
theorem C6_witness :
    (retryDownload dlFail).result = none ∧ (retryDownload dlFail).attempts = 3 ∧
    (retryDownload dlFail).sleeps = [30, 30] :=
  (C6_retry_policy dlFail).2.2.2.2 (fun _ _ _ h => Except.noConfusion h)

/-- Counterexample to claim C7 as stated: the conversion is not monotonically
decreasing over all altitude pairs, because for altitudes above 44330 the base of
the non-integer power is negative and numpy returns NaN, so no comparison holds.
Here `a1 = 0 < a2 = 88660` yet `pressure(a1) > pressure(a2)` fails. -/
theorem C7_counterexample :
    (0 : ℝ) < 88660 ∧
    ¬ ∃ p1 p2 : ℝ, pressure_hPa (some 0) = some p1 ∧
        pressure_hPa (some 88660) = some p2 ∧ p2 < p1 := by
  constructor
  · norm_num
  · rintro ⟨p1, p2, -, h2, -⟩
    have hb : (1 : ℝ) - 88660 / 44330 < 0 := by norm_num
    have hnone : pressure_hPa (some (88660 : ℝ)) = none := by
      simp [pressure_hPa, ndiv, nsub, npowReal, nmul, nBin, hb]
    rw [hnone] at h2
    exact Option.noConfusion h2

/-- Claim C7 as amended: on the domain where the barometric formula is defined
(altitudes with nonnegative base, i.e. `a ≤ 44330`; above it numpy yields NaN),
the conversion is strictly monotonically decreasing, and at altitude 0 it returns
exactly 1013.25 hPa. -/
theorem C7_pressure_monotone_amended (a1 a2 : ℝ) (h12 : a1 < a2) (h2 : a2 ≤ 44330) :
    (∃ p1 p2 : ℝ, pressure_hPa (some a1) = some p1 ∧
      pressure_hPa (some a2) = some p2 ∧ p2 < p1) ∧
    pressure_hPa (some 0) = some 1013.25 := by
  have hb2 : (0 : ℝ) ≤ 1 - a2 / 44330 := by
    have : a2 / 44330 ≤ 1 := by
      rw [div_le_one (by norm_num : (0 : ℝ) < 44330)]
      exact h2
    linarith
  have hb12 : 1 - a2 / 44330 < 1 - a1 / 44330 := by linarith
  have hb1 : (0 : ℝ) ≤ 1 - a1 / 44330 := le_of_lt (lt_of_le_of_lt hb2 hb12)
  have hpow := Real.rpow_lt_rpow hb2 hb12 (by norm_num : (0 : ℝ) < 5.255)
  refine ⟨⟨1013.25 * (1 - a1 / 44330) ^ (5.255 : ℝ),
          1013.25 * (1 - a2 / 44330) ^ (5.255 : ℝ), ?_, ?_, ?_⟩, ?_⟩
  · simp [pressure_hPa, ndiv, nsub, npowReal, nmul, nBin, not_lt.mpr hb1]
  · simp [pressure_hPa, ndiv, nsub, npowReal, nmul, nBin, not_lt.mpr hb2]
  · exact mul_lt_mul_of_pos_left hpow (by norm_num)
  · norm_num [pressure_hPa, ndiv, nsub, npowReal, nmul, nBin, Real.one_rpow]

/-- Witness for the amended C7 at altitudes 0 and 44330. -/
theorem C7_amended_witness :
    (∃ p1 p2 : ℝ, pressure_hPa (some 0) = some p1 ∧
      pressure_hPa (some 44330) = some p2 ∧ p2 < p1) ∧
    pressure_hPa (some 0) = some 1013.25 :=
  C7_pressure_monotone_amended 0 44330 (by norm_num) (by norm_num)

/-- Header count distributes over file concatenation. -/
theorem countHeaders_append (l1 l2 : List CsvLine) :
    countHeaders (l1 ++ l2) = countHeaders l1 + countHeaders l2 := by
  induction l1 with
  | nil => simp [countHeaders]
  | cons a t ih =>
    cases a
    · simp [countHeaders, ih]
      omega
    · simp [countHeaders, ih]

/-- Data lines contain no header. -/
theorem countHeaders_dataLines (rows : List CsvRow) :
    countHeaders (rows.map CsvLine.data) = 0 := by
  induction rows with
  | nil => rfl
  | cons r t ih => simpa [countHeaders] using ih

/-- Appended data lines of a whole run contain no header. -/
theorem countHeaders_flatMap_data (ap : List (List CsvRow)) :
    countHeaders (ap.flatMap (fun rows => rows.map CsvLine.data)) = 0 := by
  induction ap with
  | nil => rfl
  | cons rows rest ih =>
    simp [List.flatMap_cons, countHeaders_append, countHeaders_dataLines, ih]

/-- With the header flag already false, a run only appends data lines. -/
theorem runAppends_false_file (ap : List (List CsvRow)) :
    ∀ f : List CsvLine,
      (runAppends { file := f, write_header := false } ap).file =
        f ++ ap.flatMap (fun rows => rows.map CsvLine.data) := by
  induction ap with
  | nil => intro f; simp [runAppends]
  | cons rows rest ih =>
    intro f
    show (runAppends (appendRows { file := f, write_header := false } rows) rest).file = _
    rw [show appendRows { file := f, write_header := false } rows =
        { file := f ++ rows.map CsvLine.data, write_header := false } from by
      simp [appendRows]]
    rw [ih]
    simp [List.flatMap_cons]

/-- A `02`-style run on a nonempty append list: one header then only data lines. -/
theorem run02_file_cons (ex : List CsvLine) (rows : List CsvRow)
    (rest : List (List CsvRow)) :
    (run02 ex (rows :: rest)).file =
      ex ++ CsvLine.header :: (rows.map CsvLine.data ++
        rest.flatMap (fun rs => rs.map CsvLine.data)) := by
  show (runAppends (appendRows { file := ex, write_header := true } rows) rest).file = _
  rw [show appendRows { file := ex, write_header := true } rows =
      { file := ex ++ CsvLine.header :: rows.map CsvLine.data, write_header := false } from by
    simp [appendRows]]
  rw [runAppends_false_file]
  simp

/-- Counterexample to claim C9 as stated: `02_traffic_cocip.py` initializes its
header flag to `True` unconditionally, so a run that resumes an existing non-empty
output file writes the header a second time — here a first run writes one data row,
and a resumed run over the same file leaves two header lines, not one. -/
theorem C9_counterexample :
    countHeaders (run02 (run02 [] [[rowNanCells]]).file [[rowNanCells]]).file = 2 ∧
    countHeaders (run02 (run02 [] [[rowNanCells]]).file [[rowNanCells]]).file ≠ 1 := by
  have h : countHeaders (run02 (run02 [] [[rowNanCells]]).file [[rowNanCells]]).file = 2 := rfl
  exact ⟨h, by rw [h]; omega⟩

/-- Claim C9 as amended: within a single run the header is written at most once (on
the first append) and previously written lines are preserved; the cross-run
header-once convention holds for `06_route_cocip.py`, whose header flag is set only
when the output file does not exist yet, while a fresh (absent or truncated) file as
in `06` on a new file or `13_true_air_speed.py` gets exactly one header; but a
`02_traffic_cocip.py` run resuming an existing file re-writes the header once more. -/
theorem C9_header_once_amended (ex : List CsvLine) (ap : List (List CsvRow))
    (rows0 : List CsvRow) :
    (∃ s, (run02 ex ap).file = ex ++ s) ∧
    countHeaders (run02 ex ap).file ≤ countHeaders ex + 1 ∧
    (∃ s, (run06 (some ex) ap).file = ex ++ s ∧ countHeaders s = 0) ∧
    countHeaders (run06 (some ex) ap).file = countHeaders ex ∧
    countHeaders (run06 none (rows0 :: ap)).file = 1 ∧
    countHeaders (run13 (rows0 :: ap)).file = 1 := by
  have h06 : (run06 (some ex) ap).file =
      ex ++ ap.flatMap (fun rows => rows.map CsvLine.data) :=
    runAppends_false_file ap ex
  have h06c : countHeaders (run06 (some ex) ap).file = countHeaders ex := by
    rw [h06, countHeaders_append, countHeaders_flatMap_data]
    omega
  have hfresh : countHeaders (run02 ([] : List CsvLine) (rows0 :: ap)).file = 1 := by
    rw [run02_file_cons]
    simp [countHeaders, countHeaders_append, countHeaders_dataLines,
      countHeaders_flatMap_data]
  refine ⟨?_, ?_, ⟨_, h06, countHeaders_flatMap_data ap⟩, h06c, hfresh, hfresh⟩
  · cases ap with
    | nil => exact ⟨[], by simp [run02, runAppends]⟩
    | cons rows rest => exact ⟨_, run02_file_cons ex rows rest⟩
  · cases ap with
    | nil =>
      have : (run02 ex []).file = ex := rfl
      rw [this]
      omega
    | cons rows rest =>
      rw [run02_file_cons, countHeaders_append]
      simp [countHeaders, countHeaders_append, countHeaders_dataLines,
        countHeaders_flatMap_data]

/-- Counterexample to claim C10 as stated: a flight id that is already present in
the output file can still get a new row on resume, when it has the shape
`g ++ "_ERROR"` for a failing flight `g` of the batch.  Here `"X_ERROR"` is present
at startup, flight `"X"` is not excluded, its evaluation raises, and the appended
placeholder row carries the already-present id `"X_ERROR"`. -/
theorem C10_counterexample :
    "X_ERROR" ∈ (["X_ERROR"] : List String) ∧
    ∃ row ∈ batchCocip evFail (filteredFlights ["X_ERROR"] ["X"]),
      row "flight_id" = Cell.str "X_ERROR" := by
  refine ⟨List.mem_singleton.mpr rfl, placeholderRow ("X" ++ "_ERROR"), ?_, ?_⟩
  · have hfl : filteredFlights ["X_ERROR"] ["X"] = ["X"] := by decide
    rw [hfl]
    simp [batchCocip, processOneFlight, evFail]
  · have : ("X" ++ "_ERROR" : String) = "X_ERROR" := by decide
    simp [placeholderRow, this]

/-- Claim C10 as amended: every flight id already present in the output file at
startup is excluded from the batch, and the run appends a row carrying an
already-present flight id only in one case — as the `_ERROR` placeholder of a
failing, not-excluded flight `g` with `fid = g ++ "_ERROR"`; in particular ids not
of that shape are never written again. -/
theorem C10_resume_filter_amended (ev : String → Except Unit (Bool × List CsvRow))
    (existing flights : List String) (fid : String) (hmem : fid ∈ existing) :
    fid ∉ filteredFlights existing flights ∧
    ∀ row ∈ batchCocip ev (filteredFlights existing flights),
      row "flight_id" = Cell.str fid →
      ∃ g, g ∈ flights ∧ g ∉ existing ∧ ev g = Except.error () ∧ fid = g ++ "_ERROR" := by
  constructor
  · intro hin
    rcases List.mem_filter.mp hin with ⟨-, hdec⟩
    exact (of_decide_eq_true hdec) hmem
  · intro row hrow hfid
    rcases List.mem_flatMap.mp hrow with ⟨g, hg, hrowg⟩
    rcases List.mem_filter.mp hg with ⟨hgd, hgdec⟩
    have hgfl : g ∈ flights := List.mem_dedup.mp hgd
    have hgex : g ∉ existing := of_decide_eq_true hgdec
    cases hev : ev g with
    | error e =>
      cases e
      have hrow' : row = placeholderRow (g ++ "_ERROR") := by
        simpa [processOneFlight, hev] using hrowg
      refine ⟨g, hgfl, hgex, hev, ?_⟩
      rw [hrow'] at hfid
      simp [placeholderRow] at hfid
      exact hfid.symm
    | ok pr =>
      obtain ⟨b, rows⟩ := pr
      cases b with
      | true =>
        have hmem' : row ∈ rows.map (tagRow g) := by
          simpa [processOneFlight, hev] using hrowg
        rcases List.mem_map.mp hmem' with ⟨p, -, hp⟩
        rw [← hp] at hfid
        simp [tagRow] at hfid
        cases hfid
        exact absurd hmem hgex
      | false =>
        have hrow' : row = placeholderRow g := by
          simpa [processOneFlight, hev] using hrowg
        rw [hrow'] at hfid
        simp [placeholderRow] at hfid
        cases hfid
        exact absurd hmem hgex

/-- Witness for the amended C10: an id present at startup is excluded, vacuously
satisfying the error-placeholder characterization on an empty batch. -/
theorem C10_amended_witness :
    "Y" ∉ filteredFlights ["Y"] [] ∧
    ∀ row ∈ batchCocip evFail (filteredFlights ["Y"] []),
      row "flight_id" = Cell.str "Y" →
      ∃ g, g ∈ ([] : List String) ∧ g ∉ (["Y"] : List String) ∧
        evFail g = Except.error () ∧ "Y" = g ++ "_ERROR" :=
  C10_resume_filter_amended evFail ["Y"] [] "Y" (List.mem_singleton.mpr rfl)

/-- Stability of ordered insertion with respect to the per-key subframes: inserting
a row and then filtering by any key is the same as consing and filtering, because
the insertion point only passes rows with strictly smaller keys. -/
theorem filter_orderedInsert (a : RawRow) (k : String) :
    ∀ l : List RawRow,
      (List.orderedInsert keyLe a l).filter (keyMatches k) =
        (a :: l).filter (keyMatches k)
  | [] => rfl
  | x :: xs => by
    have IH := filter_orderedInsert a k xs
    by_cases hax : keyLe a x
    · rw [List.orderedInsert_of_le keyLe _ hax]
    · have hne : a.flight_id ≠ x.flight_id := fun h => hax (le_of_eq h)
      have hoi : List.orderedInsert keyLe a (x :: xs) =
          x :: List.orderedInsert keyLe a xs := by
        simp [List.orderedInsert, hax]
      rw [hoi]
      by_cases hak : a.flight_id = k
      · have hxk : x.flight_id ≠ k := fun h => hne (hak.trans h.symm)
        simp [List.filter_cons, keyMatches, hak, hxk, IH]
      · simp [List.filter_cons, keyMatches, hak, IH]

/-- The stable sort by `flight_id` leaves every per-key subframe unchanged. -/
theorem filter_sortByFlightId (k : String) :
    ∀ l : List RawRow,
      (sortByFlightId l).filter (keyMatches k) = l.filter (keyMatches k)
  | [] => rfl
  | r :: rs => by
    have IH := filter_sortByFlightId k rs
    simp only [sortByFlightId] at IH
    show (List.orderedInsert keyLe r (List.insertionSort keyLe rs)).filter (keyMatches k) = _
    rw [filter_orderedInsert r k (List.insertionSort keyLe rs)]
    simp [List.filter_cons, IH]

/-- The stable sort by `flight_id` is sorted by `flight_id`. -/
theorem sorted_sortByFlightId (l : List RawRow) : List.Sorted keyLe (sortByFlightId l) :=
  List.sorted_insertionSort keyLe l

/-- The `groupby` keys are exactly the keys occurring in the frame. -/
theorem mem_sortedUniqueKeys (l : List RawRow) (k : String) :
    k ∈ sortedUniqueKeys l ↔ ∃ r ∈ l, r.flight_id = k := by
  unfold sortedUniqueKeys
  rw [List.mem_insertionSort, List.mem_dedup]
  simp [List.mem_map]

/-- The `groupby` keys are distinct. -/
theorem nodup_sortedUniqueKeys (l : List RawRow) : (sortedUniqueKeys l).Nodup :=
  ((List.perm_insertionSort _ _).nodup_iff).mpr (List.nodup_dedup _)

/-- The `groupby` keys are sorted. -/
theorem sorted_sortedUniqueKeys (l : List RawRow) :
    List.Sorted (· ≤ ·) (sortedUniqueKeys l) :=
  List.sorted_insertionSort _ _

/-- Every row of a per-key subframe carries that key. -/
theorem mem_filter_keyMatches {l : List RawRow} {k : String} {x : RawRow}
    (h : x ∈ l.filter (keyMatches k)) : x.flight_id = k :=
  of_decide_eq_true (List.mem_filter.mp h).2

/-- Rows of equal key are pairwise related by `keyLe`. -/
theorem pairwise_of_const_key :
    ∀ (m : List RawRow) (k : String),
      (∀ x ∈ m, x.flight_id = k) → List.Pairwise keyLe m
  | [], _, _ => List.Pairwise.nil
  | x :: xs, k, h => by
    refine List.Pairwise.cons (fun y hy => ?_)
      (pairwise_of_const_key xs k (fun y hy => h y (List.mem_cons_of_mem _ hy)))
    have hx := h x (List.mem_cons_self x xs)
    have hy' := h y (List.mem_cons_of_mem _ hy)
    exact le_of_eq (hx.trans hy'.symm)

/-- Concatenating per-key groups over a sorted key list yields a key-sorted list. -/
theorem sorted_flatMap_groups (G : String → List RawRow)
    (hG : ∀ k x, x ∈ G k → x.flight_id = k) :
    ∀ ks : List String, List.Sorted (· ≤ ·) ks → List.Sorted keyLe (ks.flatMap G)
  | [], _ => by simp [List.Sorted]
  | k :: ks, hs => by
    rw [List.flatMap_cons]
    refine List.pairwise_append.mpr
      ⟨pairwise_of_const_key (G k) k (hG k), sorted_flatMap_groups G hG ks hs.of_cons, ?_⟩
    intro a ha b hb
    rcases List.mem_flatMap.mp hb with ⟨q, hq, hbq⟩
    have hak : a.flight_id = k := hG k a ha
    have hbq' : b.flight_id = q := hG q b hbq
    have hkq : k ≤ q := List.rel_of_sorted_cons hs q hq
    rw [keyLe, hak, hbq']
    exact hkq

/-- Filtering a per-key subframe by its own key changes nothing. -/
theorem filter_keyMatches_self (l : List RawRow) (k : String) :
    (l.filter (keyMatches k)).filter (keyMatches k) = l.filter (keyMatches k) :=
  List.filter_eq_self.mpr (fun _ hx => (List.mem_filter.mp hx).2)

/-- Filtering a per-key subframe by a different key gives the empty frame. -/
theorem filter_keyMatches_other (l : List RawRow) {q k : String} (h : q ≠ k) :
    (l.filter (keyMatches q)).filter (keyMatches k) = [] := by
  rw [List.filter_eq_nil_iff]
  intro y hy hyk
  exact h ((mem_filter_keyMatches hy).symm.trans (of_decide_eq_true hyk))

/-- Filtering the concatenation of per-key groups over distinct keys selects
exactly the group of the filtered key, if present. -/
theorem filter_flatMap_groups (l : List RawRow) (k : String) :
    ∀ ks : List String, ks.Nodup →
      ((ks.flatMap fun q => l.filter (keyMatches q)).filter (keyMatches k)) =
        if k ∈ ks then l.filter (keyMatches k) else []
  | [], _ => by simp
  | q :: ks, hnd => by
    have hnd' := List.nodup_cons.mp hnd
    rw [List.flatMap_cons, List.filter_append, filter_flatMap_groups l k ks hnd'.2]
    by_cases hqk : q = k
    · subst hqk
      rw [filter_keyMatches_self, if_neg hnd'.1, if_pos (List.mem_cons_self q ks),
        List.append_nil]
    · rw [filter_keyMatches_other l hqk, List.nil_append]
      by_cases hk : k ∈ ks
      · rw [if_pos hk, if_pos (List.mem_cons_of_mem q hk)]
      · rw [if_neg hk, if_neg (fun hmem => (List.mem_cons.mp hmem).elim
          (fun h => hqk h.symm) hk)]

/-- The concatenated `groupby` groups have the same per-key subframes as the
original frame. -/
theorem filter_groupRows (l : List RawRow) (k : String) :
    (groupRows l).filter (keyMatches k) = l.filter (keyMatches k) := by
  unfold groupRows
  rw [filter_flatMap_groups l k (sortedUniqueKeys l) (nodup_sortedUniqueKeys l)]
  by_cases hk : k ∈ sortedUniqueKeys l
  · rw [if_pos hk]
  · rw [if_neg hk]
    symm
    rw [List.filter_eq_nil_iff]
    intro x hx hxk
    exact hk ((mem_sortedUniqueKeys l k).mpr ⟨x, hx, of_decide_eq_true hxk⟩)

/-- The concatenated `groupby` groups are key-sorted. -/
theorem sorted_groupRows (l : List RawRow) : List.Sorted keyLe (groupRows l) :=
  sorted_flatMap_groups _ (fun _ _ hx => mem_filter_keyMatches hx)
    (sortedUniqueKeys l) (sorted_sortedUniqueKeys l)

/-- Uniqueness of stable sorting: two key-sorted lists with identical per-key
subframes are equal. -/
theorem eq_of_sorted_of_filter :
    ∀ (L1 L2 : List RawRow), List.Sorted keyLe L1 → List.Sorted keyLe L2 →
      (∀ k, L1.filter (keyMatches k) = L2.filter (keyMatches k)) → L1 = L2
  | [], [], _, _, _ => rfl
  | [], b :: t2, _, _, hf => by
    have h := hf b.flight_id
    rw [List.filter_cons_of_pos (by simp [keyMatches])] at h
    exact List.noConfusion h
  | a :: t1, [], _, _, hf => by
    have h := hf a.flight_id
    rw [List.filter_cons_of_pos (by simp [keyMatches])] at h
    exact List.noConfusion h
  | a :: t1, b :: t2, h1, h2, hf => by
    rcases lt_trichotomy a.flight_id b.flight_id with hlt | heq | hgt
    · exfalso
      have h := hf a.flight_id
      rw [List.filter_cons_of_pos (by simp [keyMatches]),
        List.filter_cons_of_neg (by simp [keyMatches]; exact hlt.ne')] at h
      have hat2 : a ∈ t2 :=
        (List.mem_filter.mp (h ▸ List.mem_cons_self a _)).1
      exact absurd (List.rel_of_sorted_cons h2 a hat2) (not_le.mpr hlt)
    · have h := hf a.flight_id
      rw [List.filter_cons_of_pos (by simp [keyMatches]),
        List.filter_cons_of_pos (by simp [keyMatches, heq])] at h
      injection h with hab htail
      subst hab
      congr 1
      refine eq_of_sorted_of_filter t1 t2 h1.of_cons h2.of_cons (fun k => ?_)
      by_cases hk : a.flight_id = k
      · rw [← hk]
        exact htail
      · have h' := hf k
        rw [List.filter_cons_of_neg (by simp [keyMatches, hk]),
          List.filter_cons_of_neg (by simp [keyMatches, hk])] at h'
        exact h'
    · exfalso
      have h := hf b.flight_id
      rw [List.filter_cons_of_neg (by simp [keyMatches]; exact hgt.ne'),
        List.filter_cons_of_pos (by simp [keyMatches])] at h
      have hm : b ∈ t1.filter (keyMatches b.flight_id) := by
        rw [h]
        exact List.mem_cons_self b _
      exact absurd (List.rel_of_sorted_cons h1 b (List.mem_filter.mp hm).1)
        (not_le.mpr hgt)

/-- Concatenating the `groupby` groups in key order is exactly the stable sort of
the frame by `flight_id`. -/
theorem groupRows_eq_sortByFlightId (l : List RawRow) :
    groupRows l = sortByFlightId l :=
  eq_of_sorted_of_filter (groupRows l) (sortByFlightId l)
    (sorted_groupRows l) (sorted_sortByFlightId l)
    (fun k => (filter_groupRows l k).trans (filter_sortByFlightId k l).symm)

/-- Claim C8: processing is group-wise independent in `flight_id` — the
concatenation of the per-flight processed frames, as produced by the `groupby`
loop, equals the processing of the full un-split frame taken in flight_id-sorted
(stable) order. -/
theorem C8_groupwise_independence (met : MetData) (l : List RawRow) :
    groupbyProcess met l = processFlightRows met (sortByFlightId l) := by
  have h1 : groupbyProcess met l = (groupRows l).map (processRow met) := by
    unfold groupbyProcess groupRows
    rw [List.map_flatMap]
    simp only [processFlightRows_eq_map]
  rw [h1, groupRows_eq_sortByFlightId, ← processFlightRows_eq_map]
